import Mathlib

/-!
Verification of the OpenThread mDNS responder (`src/core/net/mdns.hpp`) and the
`Appender` helper, against its natural-language specification.

The repository snapshot carries the class headers (declarations, documented
contracts, and all numeric protocol constants) but not the method bodies.
Protocol constants below are transcribed directly from `mdns.hpp`; behavioral
definitions whose bodies are absent are modelled from the specification and the
header's documented contracts, and are marked `Modelled from the spec:` in
their doc comments.
-/

namespace Mdns

/-- Model of the `ot::Error` codes used by the mDNS module and `Appender`
(`kErrorNone`, `kErrorInvalidState`, `kErrorNoBufs`, `kErrorDuplicated`,
`kErrorParse`, `kErrorInvalidArgs`, `kErrorNotFound`). -/
inductive OtError where
| ok
| invalidState
| noBufs
| duplicated
| parse
| invalidArgs
| notFound
deriving DecidableEq, Repr

namespace Core

/-- `Core::kUdpPort` (mdns.hpp line 354). -/
def kUdpPort : Nat := 5353

/-- `Core::kMaxMessageSize` (mdns.hpp line 358). -/
def kMaxMessageSize : Nat := 1200

/-- `Core::kNumberOfProbes` (mdns.hpp line 360). -/
def kNumberOfProbes : Nat := 3

/-- `Core::kInitalProbeDelay` in msec (mdns.hpp line 361). -/
def kInitalProbeDelay : Nat := 20

/-- `Core::kProbeWaitTime` in msec (mdns.hpp line 362). -/
def kProbeWaitTime : Nat := 250

/-- `Core::kNumberOfAnnounces` (mdns.hpp line 364). -/
def kNumberOfAnnounces : Nat := 3

/-- `Core::kAnnounceInterval` in msec, time between first two announces
(mdns.hpp line 365). -/
def kAnnounceInterval : Nat := 1000

/-- `Core::kDefaultTtl` in seconds (mdns.hpp line 368). -/
def kDefaultTtl : Nat := 120

/-- `Core::kNsecTtl` in seconds (mdns.hpp line 370). -/
def kNsecTtl : Nat := 4500

/-- `Core::kServicesPtrTtl` in seconds (mdns.hpp line 371). -/
def kServicesPtrTtl : Nat := 4500

/-- `Core::kClassQuestionUnicastFlag = (1U << 15)` (mdns.hpp line 373). -/
def kClassQuestionUnicastFlag : Nat := 1 <<< 15

/-- `Core::kClassCacheFlushFlag = (1U << 15)` (mdns.hpp line 374). -/
def kClassCacheFlushFlag : Nat := 1 <<< 15

/-- `Core::kClassMask = 0x7fff` (mdns.hpp line 375). -/
def kClassMask : Nat := 0x7fff

/-- Modelled from the spec: DNS class `IN` value 1 (`ResourceRecord::kClassInternet`
from `dns_types.hpp`, not included in the snapshot); the spec states "only class
`IN` (1) is emitted". -/
def kClassInternet : Nat := 1

/-- Modelled from the spec: DNS class `ANY` value 255 (`ResourceRecord::kClassAny`
from `dns_types.hpp`, not included in the snapshot); the spec states "class `ANY`
(255) is accepted in questions". -/
def kClassAny : Nat := 255

/-- Modelled from the spec: the class field emitted on an answer record; the real
class is always `IN` (1), with the cache-flush flag (bit 15) set on unique records. -/
def emittedRecordClass (cacheFlush : Bool) : Nat :=
  kClassInternet ||| (if cacheFlush then kClassCacheFlushFlag else 0)

/-- Modelled from the spec: whether the real class (bottom 15 bits, after masking
with `kClassMask`) of a received question's class field is accepted: class `IN`
or class `ANY`. -/
def questionClassAcceptable (c : Nat) : Bool :=
  (c &&& kClassMask == kClassInternet) || (c &&& kClassMask == kClassAny)

end Core

namespace RecordInfo

/-- `RecordInfo::kMinIntervalBetweenMulticast` in msec (mdns.hpp line 542). -/
def kMinIntervalBetweenMulticast : Nat := 1000

/-- `Time::kOneHourInMsec`. -/
def kOneHourInMsec : Nat := 60 * 60 * 1000

/-- `RecordInfo::kLastMulticastTimeAge = 10 * Time::kOneHourInMsec`
(mdns.hpp line 543). -/
def kLastMulticastTimeAge : Nat := 10 * kOneHourInMsec

end RecordInfo

namespace RxMessage

/-- `RxMessage::kMinResponseDelay` in msec (mdns.hpp line 948). -/
def kMinResponseDelay : Nat := 20

/-- `RxMessage::kMaxResponseDelay` in msec (mdns.hpp line 949). -/
def kMaxResponseDelay : Nat := 120

end RxMessage

namespace MultiPacketRxMessages

/-- `MultiPacketRxMessages::kMinProcessDelay` in msec (mdns.hpp line 991). -/
def kMinProcessDelay : Nat := 400

/-- `MultiPacketRxMessages::kMaxProcessDelay` in msec (mdns.hpp line 992). -/
def kMaxProcessDelay : Nat := 500

/-- `MultiPacketRxMessages::kMaxNumMessages` (mdns.hpp line 993). -/
def kMaxNumMessages : Nat := 10

end MultiPacketRxMessages

namespace TxMessageHistory

/-- `TimeMilli::SecToMsec`. -/
def secToMsec (aSeconds : Nat) : Nat := aSeconds * 1000

/-- `TxMessageHistory::kExpireInterval = TimeMilli::SecToMsec(10)`
(mdns.hpp line 1031). -/
def kExpireInterval : Nat := secToMsec 10

end TxMessageHistory

/-- Modelled from the spec: the buffer-backed flavor of `ot::Appender`
(constructor `Appender(uint8_t *aBuffer, uint16_t aSize)` and
`Appender::AppendBytes`; the implementation file is not in the snapshot, only
the header `appender.hpp` with its documented contract: "New content is append
in the buffer starting from aBuffer up to is size aSize. `Appender` does not
allow content to be appended beyond the size of the buffer", returning
`kErrorNone` on success and `kErrorNoBufs` when the bytes do not fit).
The state is the buffer capacity (`mEnd - mStart`) together with the bytes
appended so far (`mStart` up to `mCur`). -/
structure BufAppender where
  size : Nat
  appended : List Nat
deriving DecidableEq, Repr

namespace BufAppender

/-- `Appender::GetAppendedLength` for a buffer appender: `mCur - mStart`,
the number of bytes appended so far. -/
def getAppendedLength (a : BufAppender) : Nat := a.appended.length

/-- Modelled from the spec: `Appender::AppendBytes` in the `kBuffer` case.
If the bytes fit within the remaining room they are appended and `kErrorNone`
is returned; otherwise `kErrorNoBufs` is returned and the appender is left
unchanged. -/
def appendBytes (a : BufAppender) (bytes : List Nat) : OtError × BufAppender :=
  if a.appended.length + bytes.length ≤ a.size then
    (OtError.ok, { a with appended := a.appended ++ bytes })
  else
    (OtError.noBufs, a)

/-- `Appender(uint8_t *aBuffer, uint16_t aSize)`: a fresh appender over an
`aSize`-byte buffer with nothing appended yet. -/
def init (aSize : Nat) : BufAppender := { size := aSize, appended := [] }

/-- Runs a sequence of `AppendBytes` calls, keeping the final appender state. -/
def run (a : BufAppender) (calls : List (List Nat)) : BufAppender :=
  calls.foldl (fun s c => (s.appendBytes c).2) a

end BufAppender

/-- Modelled from the spec: the slice of `Core::RecordInfo` state that governs
multicast rate limiting and last-multicast bookkeeping (the bodies of
`RecordInfo::ShouldAppendTo`, `UpdateStateAfterAnswer`, `GetLastMulticastTime`
and `GetDurationSinceLastMulticast` are not in the snapshot): whether the
record is unique (vs a shared PTR record), its current TTL, and — when the
record has been multicast — the time of the last multicast together with the
TTL it was sent with (`mIsLastMulticastValid`, `mLastMulticastTime`). -/
structure RecState where
  isUnique : Bool
  ttl : Nat
  lastMcast : Option (Nat × Nat)
deriving DecidableEq, Repr

namespace RecState

/-- Modelled from the spec: the rate-limit conjunct of
`RecordInfo::ShouldAppendTo`: "a unique record may not be multicast within
1 second of its previous multicast unless TTL has changed; shared PTR records
are exempt". -/
def rateLimitOk (r : RecState) (aNow : Nat) : Bool :=
  !r.isUnique ||
    match r.lastMcast with
    | Option.none => true
    | Option.some (t, sentTtl) =>
        sentTtl != r.ttl ||
          decide (t + RecordInfo.kMinIntervalBetweenMulticast ≤ aNow)

/-- A command driving one record slot: a TTL update (`RecordInfo::UpdateTtl`)
or a multicast transmission attempt at a given time. -/
inductive Cmd where
| updateTtl (newTtl : Nat)
| trySend (aNow : Nat)

/-- Modelled from the spec: one step of the record slot. A `trySend` appends
the record to a multicast response only when the rate limit allows it, and on
success stamps the last-multicast time (`RecordInfo::UpdateStateAfterAnswer`);
the emitted multicast events are returned as (time, TTL) pairs. -/
def step : RecState → Cmd → RecState × List (Nat × Nat)
| r, Cmd.updateTtl v => ({ r with ttl := v }, [])
| r, Cmd.trySend aNow =>
    if r.rateLimitOk aNow then
      ({ r with lastMcast := Option.some (aNow, r.ttl) }, [(aNow, r.ttl)])
    else
      (r, [])

/-- Runs a command sequence on a record slot, collecting all multicast events. -/
def run : RecState → List Cmd → RecState × List (Nat × Nat)
| r, [] => (r, [])
| r, c :: cs =>
    let s1 := r.step c
    let s2 := s1.1.run cs
    (s2.1, s1.2 ++ s2.2)

/-- Modelled from the spec: `RecordInfo::GetLastMulticastTime` — reports the
recorded last-multicast time, treated as valid only when it was set within the
last `kLastMulticastTimeAge` (10 hours); otherwise (or when the record was
never multicast) nothing is reported (`kErrorNotFound`). -/
def getLastMulticastTime (r : RecState) (aNow : Nat) : Option Nat :=
  match r.lastMcast with
  | Option.none => Option.none
  | Option.some (t, _) =>
      if aNow ≤ t + RecordInfo.kLastMulticastTimeAge then Option.some t
      else Option.none

/-- Modelled from the spec: `RecordInfo::GetDurationSinceLastMulticast` — the
elapsed time since the last multicast, subject to the same 10-hour validity
window. -/
def getDurationSinceLastMulticast (r : RecState) (aNow : Nat) : Option Nat :=
  (r.getLastMulticastTime aNow).map (fun t => aNow - t)

end RecState

/-- Modelled from the spec: the known-answer suppression test: a known answer
carried in a received query suppresses our pending answer exactly when its TTL
is at least half of our record's TTL ("whose TTL ≥ ½ our record's TTL cancel
that pending answer"). -/
def suppressesKnownAnswer (knownAnswerTtl ourTtl : Nat) : Bool :=
  decide (ourTtl ≤ 2 * knownAnswerTtl)

/-- Modelled from the spec: `ServiceEntry::ShouldSuppressKnownAnswer(aTtl,
aSubLabel)` (body not in the snapshot) — the half-TTL test against the
matching (sub-type) PTR record's TTL. -/
def serviceEntryShouldSuppressKnownAnswer (aTtl ptrRecordTtl : Nat) : Bool :=
  suppressesKnownAnswer aTtl ptrRecordTtl

/-- Modelled from the spec: `ServiceType::ShouldSuppressKnownAnswer(aTtl)`
(body not in the snapshot) — the same half-TTL test against the aggregator's
services-PTR record TTL: "a querier's supplied PTR for this aggregator with
TTL ≥ half of our TTL suppresses our response". -/
def serviceTypeShouldSuppressKnownAnswer (aTtl servicesPtrRecordTtl : Nat) : Bool :=
  suppressesKnownAnswer aTtl servicesPtrRecordTtl

/-- A record of ours with a scheduled (pending) response, as matched against a
received known answer: its DNS owner name, record type, record class, TTL, and
the `mMulticastAnswerPending` flag. -/
structure PendingAnswer where
  name : String
  rrType : Nat
  rrClass : Nat
  ttl : Nat
  multicastAnswerPending : Bool
deriving DecidableEq, Repr

/-- A known answer: an answer record carried inside a received query. -/
structure KnownAnswer where
  name : String
  rrType : Nat
  rrClass : Nat
  ttl : Nat
deriving DecidableEq, Repr

/-- Whether a known answer matches one of our records on (name, type, class). -/
def KnownAnswer.sameRecord (ka : KnownAnswer) (p : PendingAnswer) : Bool :=
  ka.name == p.name && ka.rrType == p.rrType && ka.rrClass == p.rrClass

/-- Modelled from the spec: processing one known answer of a received query
against one of our records with a pending response: when name, type and class
match and the known answer's TTL is at least half of our record's TTL, the
pending answer is cancelled (the multicast-pending flag is cleared, so the
answer is not sent); otherwise the record is left untouched. -/
def processKnownAnswer (p : PendingAnswer) (ka : KnownAnswer) : PendingAnswer :=
  if ka.sameRecord p && suppressesKnownAnswer ka.ttl p.ttl then
    { p with multicastAnswerPending := false }
  else
    p

/-- `otMdnsHost` host registration info (addresses modelled as opaque ids). -/
structure HostInfo where
  hostName : String
  addresses : List Nat
  ttl : Nat
deriving DecidableEq, Repr

/-- `otMdnsService` service registration info. -/
structure ServiceInfo where
  serviceInstance : String
  serviceType : String
  hostName : String
  subTypeLabels : List String
  port : Nat
  weight : Nat
  priority : Nat
  txtData : List Nat
  ttl : Nat
deriving DecidableEq, Repr

/-- `otMdnsKey` key registration info. -/
structure KeyInfo where
  name : String
  serviceType : Option String
  keyData : List Nat
  ttl : Nat
deriving DecidableEq, Repr

/-- The DNS owner name of a service entry: `<instance>.<type>`. -/
def ServiceInfo.dnsName (aService : ServiceInfo) : String :=
  aService.serviceInstance ++ "." ++ aService.serviceType

/-- The DNS owner name of a key entry: `<name>` for a host key,
`<name>.<serviceType>` for a service key. -/
def KeyInfo.dnsName (aKey : KeyInfo) : String :=
  match aKey.serviceType with
  | Option.none => aKey.name
  | Option.some t => aKey.name ++ "." ++ t

/-- Whether two key infos name the same key entry. -/
def KeyInfo.sameEntry (a b : KeyInfo) : Bool :=
  a.name == b.name && a.serviceType == b.serviceType

/-- One outgoing message in the tx trace: whether it is a multicast, and the
(owner name, TTL) pairs of the records it carries. -/
structure TxMsg where
  isMulticast : Bool
  records : List (String × Nat)
deriving DecidableEq, Repr

/-- A goodbye announcement: one multicast carrying the given owner names, all
with TTL 0. -/
def goodbyeMsg (names : List String) : TxMsg :=
  { isMulticast := true, records := names.map (fun n => (n, 0)) }

/-- A recorded registration-callback invocation (`otMdnsRegisterCallback`
applied to a request id and an error). -/
structure CallbackEvent where
  requestId : Nat
  error : OtError
deriving DecidableEq, Repr

/-- Modelled from the spec: the externally observable state of `Core` — the
enabled flag, the registered host/service/key entry lists, the registration
callbacks queued on the deferred `EntryTask` tasklet and those already
invoked, the trace of sent messages, the tx-message history and the buffered
multi-packet rx messages. -/
structure CoreState where
  isEnabled : Bool
  hosts : List HostInfo
  services : List ServiceInfo
  keys : List KeyInfo
  pendingCallbacks : List CallbackEvent
  invokedCallbacks : List CallbackEvent
  sent : List TxMsg
  txHistory : List Nat
  multiPacketRx : List Nat
deriving DecidableEq, Repr

namespace CoreState

/-- The registration outcome later reported to the callback: `kErrorNone` (Ok)
when the name is successfully claimed, `kErrorDuplicated` when probing finds a
conflict; the probe result is abstracted by the `conflict` flag. -/
def registerOutcome (conflict : Bool) : OtError :=
  if conflict then OtError.duplicated else OtError.ok

/-- Modelled from the spec: `Core::RegisterHost`. Returns `kErrorInvalidState`
when the module is disabled; otherwise replaces or inserts the host entry,
returns `kErrorNone`, and queues the registration callback on the deferred
task with outcome Ok or Duplicated, so it is invoked only after this call has
returned — even on immediate success. -/
def registerHost (s : CoreState) (aHostInfo : HostInfo) (aRequestId : Nat)
    (conflict : Bool) : OtError × CoreState :=
  if !s.isEnabled then (OtError.invalidState, s)
  else
    (OtError.ok,
      { s with
        hosts := s.hosts.filter (fun h => h.hostName != aHostInfo.hostName)
                   ++ [aHostInfo]
        pendingCallbacks := s.pendingCallbacks ++
          [{ requestId := aRequestId, error := registerOutcome conflict }] })

/-- Modelled from the spec: `Core::RegisterService`; same callback contract as
`RegisterHost`. -/
def registerService (s : CoreState) (aServiceInfo : ServiceInfo)
    (aRequestId : Nat) (conflict : Bool) : OtError × CoreState :=
  if !s.isEnabled then (OtError.invalidState, s)
  else
    (OtError.ok,
      { s with
        services := s.services.filter (fun x =>
            !(x.serviceInstance == aServiceInfo.serviceInstance &&
              x.serviceType == aServiceInfo.serviceType)) ++ [aServiceInfo]
        pendingCallbacks := s.pendingCallbacks ++
          [{ requestId := aRequestId, error := registerOutcome conflict }] })

/-- Modelled from the spec: `Core::RegisterKey`; same callback contract as
`RegisterHost`. -/
def registerKey (s : CoreState) (aKeyInfo : KeyInfo) (aRequestId : Nat)
    (conflict : Bool) : OtError × CoreState :=
  if !s.isEnabled then (OtError.invalidState, s)
  else
    (OtError.ok,
      { s with
        keys := s.keys.filter (fun k => !(k.sameEntry aKeyInfo)) ++ [aKeyInfo]
        pendingCallbacks := s.pendingCallbacks ++
          [{ requestId := aRequestId, error := registerOutcome conflict }] })

/-- Modelled from the spec: `Core::UnregisterHost`. When disabled, returns
`kErrorInvalidState`. When a host with the name is registered, removes it and
sends one goodbye announcement (its address records with TTL 0); when no such
host was registered, "no action is performed". -/
def unregisterHost (s : CoreState) (aHostInfo : HostInfo) : OtError × CoreState :=
  if !s.isEnabled then (OtError.invalidState, s)
  else
    match s.hosts.find? (fun h => h.hostName == aHostInfo.hostName) with
    | Option.none => (OtError.ok, s)
    | Option.some h =>
        (OtError.ok,
          { s with
            hosts := s.hosts.filter (fun x => x.hostName != aHostInfo.hostName)
            sent := s.sent ++ [goodbyeMsg [h.hostName]] })

/-- Modelled from the spec: `Core::UnregisterService`; one goodbye for all the
service's records (service name and sub-type names) when it was registered,
no action otherwise. -/
def unregisterService (s : CoreState) (aServiceInfo : ServiceInfo) :
    OtError × CoreState :=
  if !s.isEnabled then (OtError.invalidState, s)
  else
    match s.services.find? (fun x =>
        x.serviceInstance == aServiceInfo.serviceInstance &&
        x.serviceType == aServiceInfo.serviceType) with
    | Option.none => (OtError.ok, s)
    | Option.some svc =>
        (OtError.ok,
          { s with
            services := s.services.filter (fun x =>
              !(x.serviceInstance == aServiceInfo.serviceInstance &&
                x.serviceType == aServiceInfo.serviceType))
            sent := s.sent ++
              [goodbyeMsg (svc.dnsName ::
                svc.subTypeLabels.map (fun l => l ++ "._sub." ++ svc.serviceType))] })

/-- Modelled from the spec: `Core::UnregisterKey`; one goodbye for the key
record when it was registered, no action otherwise. -/
def unregisterKey (s : CoreState) (aKeyInfo : KeyInfo) : OtError × CoreState :=
  if !s.isEnabled then (OtError.invalidState, s)
  else
    match s.keys.find? (fun k => k.sameEntry aKeyInfo) with
    | Option.none => (OtError.ok, s)
    | Option.some k =>
        (OtError.ok,
          { s with
            keys := s.keys.filter (fun x => !(x.sameEntry aKeyInfo))
            sent := s.sent ++ [goodbyeMsg [k.dnsName]] })

/-- Modelled from the spec: `Core::SetEnabled`. Disabling "will immediately
stop all operations and any communication (multicast or unicast tx) and
remove any previously registered entries without sending any goodbye
announcements or invoking their callback", and clears the tx message history
(`TxMessageHistory::Clear`) and the buffered multi-packet rx messages
(`MultiPacketRxMessages::Clear`). -/
def setEnabled (s : CoreState) (aEnabled : Bool) : CoreState :=
  if aEnabled then { s with isEnabled := true }
  else
    { isEnabled := false
      hosts := []
      services := []
      keys := []
      pendingCallbacks := []
      invokedCallbacks := s.invokedCallbacks
      sent := s.sent
      txHistory := []
      multiPacketRx := [] }

/-- The addresses the module currently advertises for a host name. -/
def advertisedAddresses (s : CoreState) (aName : String) : List Nat :=
  match s.hosts.find? (fun h => h.hostName == aName) with
  | Option.none => []
  | Option.some h => h.addresses

end CoreState

/-- The enabled core with no entries registered and an empty trace. -/
def enabledEmptyCore : CoreState :=
  { isEnabled := true, hosts := [], services := [], keys := [],
    pendingCallbacks := [], invokedCallbacks := [], sent := [],
    txHistory := [], multiPacketRx := [] }

end Mdns

namespace Mdns

/-- C8: The responder's configured protocol constants equal the spec-mandated
values: UDP port 5353; default message-size cap 1200 bytes; 3 probes spaced
250 ms after an initial 0-20 ms delay; 3 announces with a 1000 ms first
interval; default TTL 120 s; NSEC TTL 4500 s; services-PTR TTL 4500 s;
response delay bounded to the interval from 20 ms to 120 ms; multi-packet
settle window 400-500 ms with a 10-message hard cap; tx-history retention
10 s. -/
theorem protocol_constants_match_spec :
    Core.kUdpPort = 5353 ∧
    Core.kMaxMessageSize = 1200 ∧
    Core.kNumberOfProbes = 3 ∧
    Core.kProbeWaitTime = 250 ∧
    Core.kInitalProbeDelay = 20 ∧
    Core.kNumberOfAnnounces = 3 ∧
    Core.kAnnounceInterval = 1000 ∧
    Core.kDefaultTtl = 120 ∧
    Core.kNsecTtl = 4500 ∧
    Core.kServicesPtrTtl = 4500 ∧
    RxMessage.kMinResponseDelay = 20 ∧
    RxMessage.kMaxResponseDelay = 120 ∧
    MultiPacketRxMessages.kMinProcessDelay = 400 ∧
    MultiPacketRxMessages.kMaxProcessDelay = 500 ∧
    MultiPacketRxMessages.kMaxNumMessages = 10 ∧
    TxMessageHistory.kExpireInterval = 10000 := by
  repeat first | constructor | rfl

/-- C7: The QU flag of a question's class field and the cache-flush flag of an
answer-record's class field are both bit 15 (value `1 <<< 15 = 0x8000`); the
real class is the bottom 15 bits (`kClassMask = 0x7fff`, so masking equals
reduction mod `2 ^ 15`, and the flag tests exactly bit 15); only class `IN` (1)
is emitted as the real class of answer records, and class `ANY` (255) is
accepted in questions. -/
theorem class_field_flags_and_mask :
    Core.kClassQuestionUnicastFlag = 0x8000 ∧
    Core.kClassCacheFlushFlag = 0x8000 ∧
    Core.kClassQuestionUnicastFlag = 2 ^ 15 ∧
    Core.kClassMask = 0x7fff ∧
    Core.kClassMask = 2 ^ 15 - 1 ∧
    (∀ c : Nat, c &&& Core.kClassMask = c % 2 ^ 15) ∧
    (∀ c : Nat, (c &&& Core.kClassQuestionUnicastFlag ≠ 0 ↔ c.testBit 15)) ∧
    (∀ cacheFlush : Bool,
      Core.emittedRecordClass cacheFlush &&& Core.kClassMask = Core.kClassInternet) ∧
    Core.questionClassAcceptable Core.kClassInternet = true ∧
    Core.questionClassAcceptable Core.kClassAny = true ∧
    Core.questionClassAcceptable (Core.kClassCacheFlushFlag ||| Core.kClassAny) = true := by
  refine ⟨rfl, rfl, rfl, rfl, rfl, ?_, ?_, ?_, rfl, rfl, rfl⟩
  · intro c
    show c &&& 0x7fff = c % 2 ^ 15
    have h : (0x7fff : Nat) = 2 ^ 15 - 1 := by decide
    rw [h]
    apply Nat.eq_of_testBit_eq
    intro i
    rw [Nat.testBit_and, Nat.testBit_mod_two_pow, Nat.testBit_two_pow_sub_one]
    cases Nat.decLt i 15 with
    | isTrue hi => simp [hi]
    | isFalse hi => simp [hi]
  · intro c
    show c &&& 1 <<< 15 ≠ 0 ↔ c.testBit 15
    have h : (1 <<< 15 : Nat) = 2 ^ 15 := by decide
    rw [h, Nat.and_two_pow c 15]
    cases hb : c.testBit 15 <;> simp [hb]
  · intro cacheFlush
    cases cacheFlush <;> decide

theorem bufAppender_appendBytes_size (a : BufAppender) (bytes : List Nat) :
    (a.appendBytes bytes).2.size = a.size := by
  unfold BufAppender.appendBytes
  by_cases h : a.appended.length + bytes.length ≤ a.size <;> simp [h]

theorem bufAppender_appendBytes_le (a : BufAppender) (bytes : List Nat)
    (h : a.getAppendedLength ≤ a.size) :
    (a.appendBytes bytes).2.getAppendedLength ≤ (a.appendBytes bytes).2.size := by
  unfold BufAppender.appendBytes BufAppender.getAppendedLength at *
  by_cases hfit : a.appended.length + bytes.length ≤ a.size
  · simp [hfit]
  · simpa [hfit] using h

theorem bufAppender_run_le (a : BufAppender) (calls : List (List Nat))
    (h : a.getAppendedLength ≤ a.size) :
    (a.run calls).getAppendedLength ≤ (a.run calls).size := by
  induction calls generalizing a with
  | nil => exact h
  | cons c cs ih =>
      show ((a.appendBytes c).2.run cs).getAppendedLength ≤ ((a.appendBytes c).2.run cs).size
      exact ih _ (bufAppender_appendBytes_le a c h)

theorem bufAppender_run_size (a : BufAppender) (calls : List (List Nat)) :
    (a.run calls).size = a.size := by
  induction calls generalizing a with
  | nil => rfl
  | cons c cs ih =>
      show ((a.appendBytes c).2.run cs).size = a.size
      rw [ih, bufAppender_appendBytes_size]

/-- C10: For every `Appender` constructed over a fixed buffer of size `n`,
every sequence of `AppendBytes`/`Append` calls never writes outside the
`n`-byte buffer: the appended length after any call sequence never exceeds
`n`, and a single call whose length would make the total exceed the capacity
returns `NoBufs` and leaves the appender (hence the appended length)
unchanged. -/
theorem appender_never_overflows (n : Nat) (calls : List (List Nat)) :
    (BufAppender.run (BufAppender.init n) calls).size = n ∧
    (BufAppender.run (BufAppender.init n) calls).getAppendedLength ≤ n ∧
    (∀ (a : BufAppender) (bytes : List Nat),
      a.size < a.getAppendedLength + bytes.length →
      a.appendBytes bytes = (OtError.noBufs, a)) := by
  refine ⟨bufAppender_run_size _ _, ?_, ?_⟩
  · have h := bufAppender_run_le (BufAppender.init n) calls (Nat.zero_le n)
    rwa [bufAppender_run_size] at h
  · intro a bytes hover
    unfold BufAppender.appendBytes
    have hno : ¬(a.appended.length + bytes.length ≤ a.size) := by
      unfold BufAppender.getAppendedLength at hover
      omega
    simp [hno]

/-- Witness for C10 at a concrete input: capacity 4, two calls of 3 bytes
each; the run stays within bounds and an oversized call fails with `NoBufs`
leaving the state unchanged. -/
theorem appender_never_overflows_witness :
    (BufAppender.run (BufAppender.init 4) [[1, 2, 3], [4, 5, 6]]).getAppendedLength ≤ 4 ∧
    (BufAppender.init 4).appendBytes [1, 2, 3, 4, 5] =
      (OtError.noBufs, BufAppender.init 4) :=
  ⟨(appender_never_overflows 4 [[1, 2, 3], [4, 5, 6]]).2.1,
   (appender_never_overflows 4 [[1, 2, 3], [4, 5, 6]]).2.2
     (BufAppender.init 4) [1, 2, 3, 4, 5] (by decide)⟩

theorem recState_run_chain (r : RecState) (cmds : List RecState.Cmd)
    (hU : r.isUnique = true) :
    List.Chain'
      (fun e1 e2 : Nat × Nat =>
        e1.2 = e2.2 → e1.1 + RecordInfo.kMinIntervalBetweenMulticast ≤ e2.1)
      (r.lastMcast.toList ++ (r.run cmds).2) := by
  induction cmds generalizing r with
  | nil =>
      cases r.lastMcast with
      | none => simp [RecState.run]
      | some p => simp [RecState.run]
  | cons c cs ih =>
      cases c with
      | updateTtl v =>
          have h := ih { r with ttl := v } hU
          simpa [RecState.run, RecState.step] using h
      | trySend aNow =>
          by_cases hok : r.rateLimitOk aNow
          · have hih := ih { r with lastMcast := Option.some (aNow, r.ttl) } hU
            cases hlm : r.lastMcast with
            | none =>
                simp only [RecState.run, RecState.step, hok, if_true, hlm,
                  Option.toList_none, List.nil_append]
                simpa [Option.toList] using hih
            | some p =>
                obtain ⟨t, sentTtl⟩ := p
                simp only [RecState.run, RecState.step, hok, if_true, hlm,
                  Option.toList_some, List.singleton_append]
                rw [List.chain'_cons]
                constructor
                · intro heq
                  have heq2 : sentTtl = r.ttl := by simpa using heq
                  unfold RecState.rateLimitOk at hok
                  rw [hU, hlm] at hok
                  simp [heq2] at hok
                  exact hok
                · simpa [Option.toList] using hih
          · have h := ih r hU
            have hokf : r.rateLimitOk aNow = false := by
              simpa using hok
            simpa [RecState.run, RecState.step, hokf] using h

/-- C4: For every unique (non-shared) record the responder multicasts at time
`t` with unchanged TTL, it never multicasts the same record again at any time
`t2` with `0 < t2 - t < 1` second: along any command sequence (TTL updates and
transmission attempts), consecutive multicast events of the record that carry
the same TTL are at least `kMinIntervalBetweenMulticast` (1 s) apart, so no
such `t2` exists. Shared (PTR) records are exempt from the rate limit, and a
TTL change lifts it. -/
theorem unique_record_rate_limited (r : RecState) (cmds : List RecState.Cmd)
    (hU : r.isUnique = true) (h0 : r.lastMcast = Option.none) :
    List.Chain'
      (fun e1 e2 : Nat × Nat => e1.2 = e2.2 →
        ¬(0 < e2.1 - e1.1 ∧
          e2.1 - e1.1 < RecordInfo.kMinIntervalBetweenMulticast) ∧
        e1.1 + RecordInfo.kMinIntervalBetweenMulticast ≤ e2.1)
      ((r.run cmds).2) ∧
    (∀ (s : RecState) (aNow : Nat),
      s.isUnique = false → s.rateLimitOk aNow = true) ∧
    (∀ (s : RecState) (aNow t sentTtl : Nat),
      s.lastMcast = Option.some (t, sentTtl) → sentTtl ≠ s.ttl →
      s.rateLimitOk aNow = true) := by
  refine ⟨?_, ?_, ?_⟩
  · have h := recState_run_chain r cmds hU
    rw [h0] at h
    simp only [Option.toList_none, List.nil_append] at h
    refine List.Chain'.imp ?_ h
    intro e1 e2 hre heq
    have hge := hre heq
    exact ⟨by omega, hge⟩
  · intro s aNow hsh
    unfold RecState.rateLimitOk
    rw [hsh]
    simp
  · intro s aNow t sentTtl hlm hne
    unfold RecState.rateLimitOk
    rw [hlm]
    have hb : (sentTtl != s.ttl) = true := by simpa using hne
    simp [hb]

/-- Witness for C4 at a concrete input: a unique record with TTL 120 and
transmission attempts at 0 ms, 500 ms and 1200 ms; the emitted multicast
events obey the 1-second spacing. -/
theorem unique_record_rate_limited_witness :
    List.Chain'
      (fun e1 e2 : Nat × Nat => e1.2 = e2.2 →
        ¬(0 < e2.1 - e1.1 ∧
          e2.1 - e1.1 < RecordInfo.kMinIntervalBetweenMulticast) ∧
        e1.1 + RecordInfo.kMinIntervalBetweenMulticast ≤ e2.1)
      ((RecState.run ⟨true, 120, Option.none⟩
        [RecState.Cmd.trySend 0, RecState.Cmd.trySend 500,
         RecState.Cmd.trySend 1200]).2) :=
  (unique_record_rate_limited ⟨true, 120, Option.none⟩
    [RecState.Cmd.trySend 0, RecState.Cmd.trySend 500,
     RecState.Cmd.trySend 1200] rfl rfl).1

/-- C6: For every record slot and query time, the last-multicast timestamp is
treated as valid only if it was set within the last `kLastMulticastTimeAge`
(10 hours): `getLastMulticastTime` / `getDurationSinceLastMulticast` report a
valid last-multicast time if and only if the record was multicast (its
last-multicast stamp recorded by a successful transmission) within the
preceding 10 hours. -/
theorem lastMulticastTime_valid_iff (r : RecState) (queryTime : Nat) :
    ((r.getLastMulticastTime queryTime).isSome ↔
      ∃ t sentTtl, r.lastMcast = Option.some (t, sentTtl) ∧
        queryTime ≤ t + RecordInfo.kLastMulticastTimeAge) ∧
    ((r.getDurationSinceLastMulticast queryTime).isSome ↔
      (r.getLastMulticastTime queryTime).isSome) ∧
    (∀ t sentTtl, r.lastMcast = Option.some (t, sentTtl) →
      queryTime ≤ t + RecordInfo.kLastMulticastTimeAge →
      r.getLastMulticastTime queryTime = Option.some t ∧
      r.getDurationSinceLastMulticast queryTime = Option.some (queryTime - t)) ∧
    (∀ t sentTtl, r.lastMcast = Option.some (t, sentTtl) →
      t + RecordInfo.kLastMulticastTimeAge < queryTime →
      r.getLastMulticastTime queryTime = Option.none) ∧
    (r.lastMcast = Option.none →
      r.getLastMulticastTime queryTime = Option.none) ∧
    (∀ aNow, r.rateLimitOk aNow = true →
      ((r.step (RecState.Cmd.trySend aNow)).1).lastMcast =
        Option.some (aNow, r.ttl)) := by
  refine ⟨?_, ?_, ?_, ?_, ?_, ?_⟩
  · constructor
    · intro hsome
      unfold RecState.getLastMulticastTime at hsome
      cases hlm : r.lastMcast with
      | none =>
          rw [hlm] at hsome
          simp at hsome
      | some p =>
          obtain ⟨t, sentTtl⟩ := p
          rw [hlm] at hsome
          by_cases hin : queryTime ≤ t + RecordInfo.kLastMulticastTimeAge
          · exact ⟨t, sentTtl, rfl, hin⟩
          · simp [hin] at hsome
    · rintro ⟨t, sentTtl, hlm, hin⟩
      unfold RecState.getLastMulticastTime
      rw [hlm]
      simp [hin]
  · unfold RecState.getDurationSinceLastMulticast
    cases r.getLastMulticastTime queryTime <;> simp
  · intro t sentTtl hlm hin
    unfold RecState.getDurationSinceLastMulticast RecState.getLastMulticastTime
    rw [hlm]
    simp [hin]
  · intro t sentTtl hlm hout
    unfold RecState.getLastMulticastTime
    rw [hlm]
    have : ¬ queryTime ≤ t + RecordInfo.kLastMulticastTimeAge := by omega
    simp [this]
  · intro hlm
    unfold RecState.getLastMulticastTime
    rw [hlm]
  · intro aNow hok
    unfold RecState.step
    simp [hok]

/-- Witness for C6 at a concrete input: a record multicast at time 0, queried
1 second later (inside the 10-hour window) reports time 0 and duration
1000 ms. -/
theorem lastMulticastTime_valid_iff_witness :
    RecState.getLastMulticastTime ⟨true, 120, Option.some (0, 120)⟩ 1000 =
      Option.some 0 ∧
    RecState.getDurationSinceLastMulticast ⟨true, 120, Option.some (0, 120)⟩ 1000 =
      Option.some 1000 :=
  (lastMulticastTime_valid_iff ⟨true, 120, Option.some (0, 120)⟩ 1000).2.2.1
    0 120 rfl (by decide)

/-- C5: For a received known answer whose name, type and class match a record
of ours with a pending response: if the known answer's TTL is at least half of
our record's TTL, our pending answer for that record is cancelled (its
multicast-pending flag is cleared, so it is not sent); if the TTL is below
half, the pending answer is not suppressed (the record is unchanged). The
service-type aggregator's PTR answers are governed by the same half-TTL rule
(`serviceTypeShouldSuppressKnownAnswer` equals the `ServiceEntry` test). -/
theorem known_answer_half_ttl_rule (p : PendingAnswer) (ka : KnownAnswer)
    (hmatch : ka.sameRecord p = true) :
    (p.ttl ≤ 2 * ka.ttl →
      (processKnownAnswer p ka).multicastAnswerPending = false) ∧
    (2 * ka.ttl < p.ttl → processKnownAnswer p ka = p) ∧
    (suppressesKnownAnswer ka.ttl p.ttl = true ↔ p.ttl ≤ 2 * ka.ttl) ∧
    (∀ aTtl ourTtl : Nat,
      serviceTypeShouldSuppressKnownAnswer aTtl ourTtl =
        serviceEntryShouldSuppressKnownAnswer aTtl ourTtl ∧
      serviceEntryShouldSuppressKnownAnswer aTtl ourTtl =
        suppressesKnownAnswer aTtl ourTtl) := by
  refine ⟨?_, ?_, ?_, ?_⟩
  · intro hhalf
    unfold processKnownAnswer
    have hs : suppressesKnownAnswer ka.ttl p.ttl = true := by
      unfold suppressesKnownAnswer
      exact decide_eq_true hhalf
    simp [hmatch, hs]
  · intro hbelow
    unfold processKnownAnswer
    have hs : suppressesKnownAnswer ka.ttl p.ttl = false := by
      unfold suppressesKnownAnswer
      simpa using Nat.not_le.mpr hbelow
    simp [hs]
  · unfold suppressesKnownAnswer
    simp
  · intro aTtl ourTtl
    exact ⟨rfl, rfl⟩

/-- Witness for C5 at concrete inputs (the spec's scenario: our PTR with
TTL 120): a matching known answer with TTL 70 (at least half of 120) cancels
the pending answer, and one with TTL 40 (below half) leaves it pending. -/
theorem known_answer_half_ttl_rule_witness :
    (processKnownAnswer ⟨"_foo._udp.local.", 12, 1, 120, true⟩
      ⟨"_foo._udp.local.", 12, 1, 70⟩).multicastAnswerPending = false ∧
    processKnownAnswer ⟨"_foo._udp.local.", 12, 1, 120, true⟩
      ⟨"_foo._udp.local.", 12, 1, 40⟩ = ⟨"_foo._udp.local.", 12, 1, 120, true⟩ :=
  ⟨(known_answer_half_ttl_rule ⟨"_foo._udp.local.", 12, 1, 120, true⟩
      ⟨"_foo._udp.local.", 12, 1, 70⟩ (by decide)).1 (by decide),
   (known_answer_half_ttl_rule ⟨"_foo._udp.local.", 12, 1, 120, true⟩
      ⟨"_foo._udp.local.", 12, 1, 40⟩ (by decide)).2.1 (by decide)⟩

/-- C1: While the mDNS module is enabled, `RegisterHost`, `RegisterService`
and `RegisterKey` return `kErrorNone` (never `Duplicated`); the registration
outcome reported to the callback is exactly `kErrorNone` (Ok) or
`kErrorDuplicated`; and at the moment the register call returns the callback
has only been queued on the deferred task, not invoked — so it runs strictly
after the call returns, even on immediate registration success. -/
theorem register_returns_ok_callback_async (s : CoreState)
    (hEn : s.isEnabled = true) (aHostInfo : HostInfo)
    (aServiceInfo : ServiceInfo) (aKeyInfo : KeyInfo) (aRequestId : Nat)
    (conflict : Bool) :
    ((s.registerHost aHostInfo aRequestId conflict).1 = OtError.ok ∧
      (s.registerHost aHostInfo aRequestId conflict).2.invokedCallbacks =
        s.invokedCallbacks ∧
      (s.registerHost aHostInfo aRequestId conflict).2.pendingCallbacks =
        s.pendingCallbacks ++
          [⟨aRequestId, CoreState.registerOutcome conflict⟩]) ∧
    ((s.registerService aServiceInfo aRequestId conflict).1 = OtError.ok ∧
      (s.registerService aServiceInfo aRequestId conflict).2.invokedCallbacks =
        s.invokedCallbacks ∧
      (s.registerService aServiceInfo aRequestId conflict).2.pendingCallbacks =
        s.pendingCallbacks ++
          [⟨aRequestId, CoreState.registerOutcome conflict⟩]) ∧
    ((s.registerKey aKeyInfo aRequestId conflict).1 = OtError.ok ∧
      (s.registerKey aKeyInfo aRequestId conflict).2.invokedCallbacks =
        s.invokedCallbacks ∧
      (s.registerKey aKeyInfo aRequestId conflict).2.pendingCallbacks =
        s.pendingCallbacks ++
          [⟨aRequestId, CoreState.registerOutcome conflict⟩]) ∧
    (CoreState.registerOutcome conflict = OtError.ok ∨
      CoreState.registerOutcome conflict = OtError.duplicated) := by
  refine ⟨?_, ?_, ?_, ?_⟩
  · unfold CoreState.registerHost
    rw [hEn]
    exact ⟨rfl, rfl, rfl⟩
  · unfold CoreState.registerService
    rw [hEn]
    exact ⟨rfl, rfl, rfl⟩
  · unfold CoreState.registerKey
    rw [hEn]
    exact ⟨rfl, rfl, rfl⟩
  · unfold CoreState.registerOutcome
    cases conflict
    · exact Or.inl rfl
    · exact Or.inr rfl

/-- Witness for C1 at a concrete input: registering host `h1`, service
`(srv1, _tst._udp)` and key `h1` on the enabled empty core returns
`kErrorNone` for all three and leaves the callback queued, not invoked. -/
theorem register_returns_ok_callback_async_witness :
    (enabledEmptyCore.registerHost ⟨"h1", [1], 120⟩ 7 false).1 = OtError.ok ∧
    (enabledEmptyCore.registerService
      ⟨"srv1", "_tst._udp", "h1", [], 80, 0, 0, [], 120⟩ 7 false).1 =
      OtError.ok ∧
    (enabledEmptyCore.registerKey
      ⟨"h1", Option.none, [1, 2], 120⟩ 7 false).1 = OtError.ok ∧
    (enabledEmptyCore.registerHost ⟨"h1", [1], 120⟩ 7 false).2.invokedCallbacks =
      [] := by
  have h := register_returns_ok_callback_async enabledEmptyCore rfl
    ⟨"h1", [1], 120⟩ ⟨"srv1", "_tst._udp", "h1", [], 80, 0, 0, [], 120⟩
    ⟨"h1", Option.none, [1, 2], 120⟩ 7 false
  exact ⟨h.1.1, h.2.1.1, h.2.2.1.1, h.1.2.1⟩

/-- Every record a goodbye announcement carries has TTL 0, and the goodbye is
a multicast. -/
theorem goodbyeMsg_is_ttl_zero_multicast (names : List String) :
    (goodbyeMsg names).isMulticast = true ∧
    ∀ rec ∈ (goodbyeMsg names).records, rec.2 = 0 := by
  refine ⟨rfl, ?_⟩
  intro rec hrec
  unfold goodbyeMsg at hrec
  simp only [List.mem_map] at hrec
  obtain ⟨n, _, heq⟩ := hrec
  rw [← heq]

/-- C2 counterexample: with the module enabled and no host ever registered,
`UnregisterHost` for name `h1` performs no action — it returns `kErrorNone`
but the tx trace stays empty, so no multicast with TTL-0 records (and in
particular not exactly one) is sent for this unregister call, refuting the
claim for an unregister call naming an entry that was never registered. -/
theorem unregister_unknown_entry_sends_nothing :
    enabledEmptyCore.isEnabled = true ∧
    (enabledEmptyCore.unregisterHost ⟨"h1", [], 120⟩).1 = OtError.ok ∧
    (enabledEmptyCore.unregisterHost ⟨"h1", [], 120⟩).2.sent = [] :=
  ⟨rfl, rfl, rfl⟩

/-- C2 (amended): while the module is enabled, an unregister call naming a
previously registered host, service, or key entry causes exactly one multicast
carrying the entry's records with TTL 0 (a goodbye) to be sent; an unregister
call naming an entry that was never registered performs no action and sends
nothing. -/
theorem unregister_goodbye_exactly_once (s : CoreState)
    (hEn : s.isEnabled = true) (aHostInfo : HostInfo)
    (aServiceInfo : ServiceInfo) (aKeyInfo : KeyInfo) :
    ((∀ h, s.hosts.find? (fun x => x.hostName == aHostInfo.hostName) =
        Option.some h →
      (s.unregisterHost aHostInfo).1 = OtError.ok ∧
      (s.unregisterHost aHostInfo).2.sent =
        s.sent ++ [goodbyeMsg [h.hostName]] ∧
      (goodbyeMsg [h.hostName]).isMulticast = true ∧
      (∀ rec ∈ (goodbyeMsg [h.hostName]).records, rec.2 = 0)) ∧
     (s.hosts.find? (fun x => x.hostName == aHostInfo.hostName) =
        Option.none →
      s.unregisterHost aHostInfo = (OtError.ok, s))) ∧
    ((∀ svc, s.services.find? (fun x =>
        x.serviceInstance == aServiceInfo.serviceInstance &&
        x.serviceType == aServiceInfo.serviceType) = Option.some svc →
      (s.unregisterService aServiceInfo).1 = OtError.ok ∧
      (s.unregisterService aServiceInfo).2.sent = s.sent ++
        [goodbyeMsg (svc.dnsName ::
          svc.subTypeLabels.map (fun l => l ++ "._sub." ++ svc.serviceType))] ∧
      (∀ rec ∈ (goodbyeMsg (svc.dnsName ::
          svc.subTypeLabels.map (fun l => l ++ "._sub." ++ svc.serviceType))).records,
        rec.2 = 0)) ∧
     (s.services.find? (fun x =>
        x.serviceInstance == aServiceInfo.serviceInstance &&
        x.serviceType == aServiceInfo.serviceType) = Option.none →
      s.unregisterService aServiceInfo = (OtError.ok, s))) ∧
    ((∀ k, s.keys.find? (fun x => x.sameEntry aKeyInfo) = Option.some k →
      (s.unregisterKey aKeyInfo).1 = OtError.ok ∧
      (s.unregisterKey aKeyInfo).2.sent = s.sent ++ [goodbyeMsg [k.dnsName]] ∧
      (∀ rec ∈ (goodbyeMsg [k.dnsName]).records, rec.2 = 0)) ∧
     (s.keys.find? (fun x => x.sameEntry aKeyInfo) = Option.none →
      s.unregisterKey aKeyInfo = (OtError.ok, s))) := by
  refine ⟨⟨?_, ?_⟩, ⟨?_, ?_⟩, ⟨?_, ?_⟩⟩
  · intro h hfind
    unfold CoreState.unregisterHost
    rw [hEn, hfind]
    exact ⟨rfl, rfl, rfl, (goodbyeMsg_is_ttl_zero_multicast [h.hostName]).2⟩
  · intro hfind
    unfold CoreState.unregisterHost
    rw [hEn, hfind]
    rfl
  · intro svc hfind
    unfold CoreState.unregisterService
    rw [hEn, hfind]
    exact ⟨rfl, rfl, (goodbyeMsg_is_ttl_zero_multicast _).2⟩
  · intro hfind
    unfold CoreState.unregisterService
    rw [hEn, hfind]
    rfl
  · intro k hfind
    unfold CoreState.unregisterKey
    rw [hEn, hfind]
    exact ⟨rfl, rfl, (goodbyeMsg_is_ttl_zero_multicast _).2⟩
  · intro hfind
    unfold CoreState.unregisterKey
    rw [hEn, hfind]
    rfl

/-- Witness for the amended C2 at a concrete input: unregistering host `h1`
after registering it sends exactly one goodbye (one multicast with the host
name at TTL 0) appended to the tx trace. -/
theorem unregister_goodbye_exactly_once_witness :
    ((enabledEmptyCore.registerHost ⟨"h1", [1], 120⟩ 7 false).2.unregisterHost
        ⟨"h1", [], 0⟩).2.sent = [goodbyeMsg ["h1"]] := by
  have hfind :
      ((enabledEmptyCore.registerHost ⟨"h1", [1], 120⟩ 7 false).2).hosts.find?
        (fun x => x.hostName == (⟨"h1", [], 0⟩ : HostInfo).hostName) =
        Option.some ⟨"h1", [1], 120⟩ := by decide
  have h := (unregister_goodbye_exactly_once
    (enabledEmptyCore.registerHost ⟨"h1", [1], 120⟩ 7 false).2 rfl
    ⟨"h1", [], 0⟩ ⟨"s", "_t._udp", "h", [], 0, 0, 0, [], 0⟩
    ⟨"k", Option.none, [], 0⟩).1.1 ⟨"h1", [1], 120⟩ hfind
  rw [h.2.1]
  rfl

/-- C3: `SetEnabled(false)` in any state removes every registered host,
service and key entry without sending any goodbye announcement (the tx trace
is unchanged) and without invoking any entry's callback (the invoked-callback
record is unchanged and the queued callbacks are dropped, never run), stops
all transmission, and clears the tx message history and the multi-packet rx
buffers; afterwards `IsEnabled()` returns `false`. -/
theorem setEnabled_false_silent_teardown (s : CoreState) :
    (s.setEnabled false).isEnabled = false ∧
    (s.setEnabled false).hosts = [] ∧
    (s.setEnabled false).services = [] ∧
    (s.setEnabled false).keys = [] ∧
    (s.setEnabled false).sent = s.sent ∧
    (s.setEnabled false).invokedCallbacks = s.invokedCallbacks ∧
    (s.setEnabled false).pendingCallbacks = [] ∧
    (s.setEnabled false).txHistory = [] ∧
    (s.setEnabled false).multiPacketRx = [] := by
  unfold CoreState.setEnabled
  exact ⟨rfl, rfl, rfl, rfl, rfl, rfl, rfl, rfl, rfl⟩

/-- C9: `RegisterHost` with an empty address array while the module is enabled
is accepted, not rejected as `InvalidArgs`: it returns `kErrorNone`, the
registration callback is still queued for invocation after the call returns,
and afterwards the module advertises no addresses for that host name — as if
the host were unregistered. -/
theorem registerHost_empty_addresses_accepted (s : CoreState)
    (hEn : s.isEnabled = true) (aHostInfo : HostInfo)
    (hEmpty : aHostInfo.addresses = []) (aRequestId : Nat) (conflict : Bool) :
    (s.registerHost aHostInfo aRequestId conflict).1 = OtError.ok ∧
    (s.registerHost aHostInfo aRequestId conflict).1 ≠ OtError.invalidArgs ∧
    (s.registerHost aHostInfo aRequestId conflict).2.advertisedAddresses
      aHostInfo.hostName = [] ∧
    (s.registerHost aHostInfo aRequestId conflict).2.pendingCallbacks =
      s.pendingCallbacks ++
        [⟨aRequestId, CoreState.registerOutcome conflict⟩] := by
  have hreg := register_returns_ok_callback_async s hEn aHostInfo
    ⟨"", "", "", [], 0, 0, 0, [], 0⟩ ⟨"", Option.none, [], 0⟩
    aRequestId conflict
  refine ⟨hreg.1.1, ?_, ?_, hreg.1.2.2⟩
  · rw [hreg.1.1]
    intro hcontra
    cases hcontra
  · have hh : (s.registerHost aHostInfo aRequestId conflict).2.hosts =
        s.hosts.filter (fun h => h.hostName != aHostInfo.hostName)
          ++ [aHostInfo] := by
      unfold CoreState.registerHost
      rw [hEn]
      rfl
    have hnone : (s.hosts.filter
        (fun h => h.hostName != aHostInfo.hostName)).find?
        (fun h => h.hostName == aHostInfo.hostName) = Option.none := by
      rw [List.find?_eq_none]
      intro x hx
      have hmem := (List.mem_filter.mp hx).2
      simpa using hmem
    unfold CoreState.advertisedAddresses
    rw [hh, List.find?_append, hnone]
    simp [hEmpty]

/-- Witness for C9 at a concrete input: registering host `h1` with no
addresses on the enabled empty core returns `kErrorNone` and advertises no
addresses for `h1`. -/
theorem registerHost_empty_addresses_accepted_witness :
    (enabledEmptyCore.registerHost ⟨"h1", [], 120⟩ 7 false).1 = OtError.ok ∧
    (enabledEmptyCore.registerHost ⟨"h1", [], 120⟩ 7 false).2.advertisedAddresses
      "h1" = [] := by
  have h := registerHost_empty_addresses_accepted enabledEmptyCore rfl
    ⟨"h1", [], 120⟩ rfl 7 false
  exact ⟨h.1, h.2.2.1⟩

end Mdns
